import Mathlib

/-!
Shallow embedding of `plot.py` from PlotYourselfTelegramBot.

Coordinates are modelled as rationals (`ℚ`); Python dicts (which preserve
insertion order) are modelled as association lists with in-place update;
the uncaught `ValueError` of `list.remove` is modelled with `Except`.
All plots here are constructor-created, so the `except AttributeError`
legacy branches of the Python code are dead and are not modelled.
-/

attribute [local semireducible] Rat.add Rat.sub Rat.mul Rat.inv Rat.ofScientific

/-- A stored point `(label, x, y, err_x, err_y)` of `Plot.__points`. -/
structure Point where
  label : String
  x : ℚ
  y : ℚ
  errX : ℚ
  errY : ℚ
deriving Repr, DecidableEq, Inhabited

/-- `d.get(k)` on an insertion-ordered dict. -/
def dictGet {β : Type} (d : List (String × β)) (k : String) : Option β :=
  (d.find? (fun kv => kv.1 == k)).map (fun kv => kv.2)

/-- `d[k] = v` on an insertion-ordered dict: update in place if the key is
present, else append. -/
def dictSet {β : Type} (d : List (String × β)) (k : String) (v : β) :
    List (String × β) :=
  if (d.find? (fun kv => kv.1 == k)).isSome then
    d.map (fun kv => if kv.1 == k then (k, v) else kv)
  else
    d ++ [(k, v)]

/-- `del d[k]` on an insertion-ordered dict. -/
def dictDel {β : Type} (d : List (String × β)) (k : String) :
    List (String × β) :=
  d.filter (fun kv => kv.1 != k)

/-- The inner dict of `Plot.__crowdsourced_points[label]`:
contributor id ↦ contributed coordinate. -/
abbrev Contribs : Type := List (String × (ℚ × ℚ))

/-- The state of a `Plot` object as set up by `Plot.__init__`. -/
structure Plot where
  name : String
  xaxisleft : Option String
  xaxisright : Option String
  yaxisbottom : Option String
  yaxistop : Option String
  minx : Option ℚ
  maxx : Option ℚ
  miny : Option ℚ
  maxy : Option ℚ
  points : List Point
  crowdsourced_points : List (String × Contribs)
  crowdsourceable : List (String × String)
  createdby : String
  custompoints : Bool
  plotId : Nat
deriving Repr, DecidableEq

/-- `Plot.__check_bounds`: `False` iff some bound is present and violated. -/
def Plot.check_bounds (p : Plot) (x y : ℚ) : Bool :=
  if (match p.minx with | some m => decide (x < m) | none => false) ||
     (match p.maxx with | some m => decide (x > m) | none => false) ||
     (match p.miny with | some m => decide (y < m) | none => false) ||
     (match p.maxy with | some m => decide (y > m) | none => false) then
    false
  else
    true

/-- Rendering of a bound for the error message: `str(b)` when the bound is
present (integer-valued bounds render like Python ints), `"_"` when `None`. -/
def optStr (o : Option ℚ) : String :=
  match o with
  | none => "_"
  | some q => if q.den = 1 then toString q.num else toString q

/-- The bounds-violation message built by `Plot.plot_point`. -/
def Plot.boundsErrMsg (p : Plot) : String :=
  "Error: Plot point and error cannot be out of bounds: " ++
    "x : [" ++ optStr p.minx ++ ", " ++ optStr p.maxx ++ "] " ++
    "y : [" ++ optStr p.miny ++ ", " ++ optStr p.maxy ++ "]"

/-- `Plot.plot_point`: validate the two error-expanded corners, then replace
the first point with this label in place, else append. -/
def Plot.plot_point (p : Plot) (label : String) (x y : ℚ)
    (err_x err_y : ℚ) : (Nat × String) × Plot :=
  if !(p.check_bounds (x + err_x) (y + err_y)) ||
     !(p.check_bounds (x - err_x) (y - err_y)) then
    ((1, p.boundsErrMsg), p)
  else
    if p.points.findIdx (fun t => t.label == label) < p.points.length then
      ((0, ""),
        { p with points := p.points.set
                             (p.points.findIdx (fun t => t.label == label))
                             ⟨label, x, y, err_x, err_y⟩ })
    else
      ((0, ""), { p with points := p.points ++ [⟨label, x, y, err_x, err_y⟩] })

/-- `Plot.remove_point`: error if the label is absent, else drop the first
point with the label and delete its crowdsource ledger entry. -/
def Plot.remove_point (p : Plot) (label : String) : (Nat × String) × Plot :=
  if p.points.all (fun t => t.label != label) then
    ((1, "Error: You haven't plotted yourself in this plot."), p)
  else
    ((0, ""),
      { p with
        points := p.points.eraseP (fun t => t.label == label)
        crowdsourced_points :=
          if (dictGet p.crowdsourced_points label).isSome then
            dictDel p.crowdsourced_points label
          else
            p.crowdsourced_points })

/-- `Plot.lookup_label`: the stored `(x, y)` of the first point with the
label, or the not-found error string. -/
def Plot.lookup_label (p : Plot) (label : String) : Except String (ℚ × ℚ) :=
  match p.points.find? (fun t => t.label == label) with
  | some t => Except.ok (t.x, t.y)
  | none => Except.error "Name not found on that plot."

/-- The keyword-argument dict accepted by `Plot.edit_plot`. -/
structure PlotArgs where
  title : Option (List String)
  xright : Option (List String)
  xleft : Option (List String)
  ytop : Option (List String)
  ybottom : Option (List String)
  argMinx : Option ℚ
  argMaxx : Option ℚ
  argMiny : Option ℚ
  argMaxy : Option ℚ
  argCustompoints : Option Bool
deriving Repr

/-- A `PlotArgs` with every field absent. -/
def PlotArgs.empty : PlotArgs :=
  ⟨none, none, none, none, none, none, none, none, none, none⟩

/-- `Plot.edit_plot`: overwrite each field for which an argument is given;
no revalidation of stored points happens. -/
def Plot.edit_plot (p : Plot) (a : PlotArgs) : Plot :=
  { p with
    name := match a.title with
            | some ws => String.intercalate " " ws
            | none => p.name
    xaxisright := match a.xright with
                  | some ws => some (String.intercalate " " ws)
                  | none => p.xaxisright
    xaxisleft := match a.xleft with
                 | some ws => some (String.intercalate " " ws)
                 | none => p.xaxisleft
    yaxistop := match a.ytop with
                | some ws => some (String.intercalate " " ws)
                | none => p.yaxistop
    yaxisbottom := match a.ybottom with
                   | some ws => some (String.intercalate " " ws)
                   | none => p.yaxisbottom
    minx := match a.argMinx with | some v => some v | none => p.minx
    maxx := match a.argMaxx with | some v => some v | none => p.maxx
    miny := match a.argMiny with | some v => some v | none => p.miny
    maxy := match a.argMaxy with | some v => some v | none => p.maxy
    custompoints := match a.argCustompoints with
                    | some v => v
                    | none => p.custompoints }

/-- `Plot.add_crowdsource_point`. The Python consent loop
`for (id, consent_label) in self.__crowdsourceable` tests only the label
and shadows the `id` parameter, so on success the ledger key is the first
component of the *last* consent pair, not the caller's id. -/
def Plot.add_crowdsource_point (p : Plot) (id label : String) (x y : ℚ) :
    (Nat × String) × Plot :=
  if !(p.crowdsourceable.any (fun pr => pr.2 == label)) then
    ((1, "That person (" ++ label ++
         ") has not consented to being crowdsource plotted!"), p)
  else if !(p.check_bounds x y) then
    ((1, "Error: The point cannot be out of bounds!"), p)
  else
    let key := match p.crowdsourceable.getLast? with
               | some pr => pr.1
               | none => id
    let inner := match dictGet p.crowdsourced_points label with
                 | some m => m
                 | none => []
    ((0, "Your contribution has been added!"),
      { p with crowdsourced_points :=
          dictSet p.crowdsourced_points label (dictSet inner key (x, y)) })

/-- `Plot.add_crowdsource_consent`: toggle — delegate to removal when the
exact pair is present, else append it. -/
def Plot.add_crowdsource_consent (p : Plot) (id label : String) :
    (Nat × String) × Plot :=
  if (id, label) ∈ p.crowdsourceable then
    ((0, "You have removed your consent for that plot."),
      { p with crowdsourceable := p.crowdsourceable.erase (id, label) })
  else
    ((0, "You have now consented to being crowdsourced for this plot."),
      { p with crowdsourceable := p.crowdsourceable ++ [(id, label)] })

/-- The uncaught Python exceptions relevant here: `list.remove` on a
missing element raises `ValueError` (not caught by
`remove_crowdsource_consent`, which catches only `AttributeError`), and
`x / (l - 1)` with `l - 1 == 0` in `update_points_with_crowdsource`
raises `ZeroDivisionError`. -/
inductive PyExc where
  | valueError
  | zeroDivisionError
deriving Repr, DecidableEq

/-- `Plot.remove_crowdsource_consent`: `list.remove` succeeds when the exact
pair is present; otherwise the call raises an uncaught `ValueError`. -/
def Plot.remove_crowdsource_consent (p : Plot) (id label : String) :
    Except PyExc ((Nat × String) × Plot) :=
  if (id, label) ∈ p.crowdsourceable then
    Except.ok ((0, "You have removed your consent for that plot."),
      { p with crowdsourceable := p.crowdsourceable.erase (id, label) })
  else
    Except.error PyExc.valueError

/-- `Plot.remove_crowdsource_point`. On a label with no ledger entry the
code first stores an empty inner dict for the label and then returns the
error. -/
def Plot.remove_crowdsource_point (p : Plot) (id label : String) :
    (Nat × String) × Plot :=
  match dictGet p.crowdsourced_points label with
  | none =>
    ((1, "You can't remove your crowdsource contribution to a point that doesn't exist!"),
      { p with crowdsourced_points := dictSet p.crowdsourced_points label [] })
  | some inner =>
    match dictGet inner id with
    | none => ((1, "You haven't made a crowdsource contribution for that label yet!"), p)
    | some _ =>
      ((0, "You have removed your crowdsource point for that plot."),
        { p with crowdsourced_points :=
            dictSet p.crowdsourced_points label (dictDel inner id) })

/-- `Plot.get_crowdsourced_points`: the contributions recorded for the
label, or the error (code 1) string when no ledger entry exists. -/
def Plot.get_crowdsourced_points (p : Plot) (label : String) :
    Except String Contribs :=
  match dictGet p.crowdsourced_points label with
  | none => Except.error "No one has crowdsourced you on that plot!"
  | some inner => Except.ok inner

/-- `label.replace(" ", "")` as used by `update_points_with_crowdsource`. -/
def stripSpaces (s : String) : String :=
  String.mk (s.data.filter (fun c => c != ' '))

/-- The inner search of `update_points_with_crowdsource`: first index
`i < n` (`n` = length of the stored list) whose label in the *evolving*
list, spaces removed, equals the ledger label; `none` plays `-1`. -/
def findBaseIdx (n : Nat) (acc : List Point) (label : String) : Option Nat :=
  (List.range n).find?
    (fun i => stripSpaces (((acc.get? i).map Point.label).getD "") == label)

/-- Total companion of `foldEntryT`'s faithful counterpart `foldEntry`
below, used only to state the fold's successful results (under the
no-`ZeroDivisionError` hypothesis the two agree): on the branch where the
code would raise, `ℚ` division by zero silently yields `0`. -/
def foldEntryT (orig : List Point) (acc : List Point)
    (label : String) (contribs : Contribs) : List Point :=
  match findBaseIdx orig.length acc label with
  | some i =>
    let base := (orig.get? i).getD default
    let cur := (acc.get? i).getD default
    let l : ℚ := contribs.length + 1
    let sx := base.x + (contribs.map (fun c => c.2.1)).sum
    let sy := base.y + (contribs.map (fun c => c.2.2)).sum
    acc.set i ⟨label, sx / l, sy / l, cur.errX, cur.errY⟩
  | none =>
    let l : ℚ := contribs.length + 1
    let sx := (contribs.map (fun c => c.2.1)).sum
    let sy := (contribs.map (fun c => c.2.2)).sum
    acc ++ [⟨label, sx / (l - 1), sy / (l - 1), 0, 0⟩]

/-- One iteration of the ledger loop of `update_points_with_crowdsource`:
base coordinates come from the original stored list, error margins from
the evolving list. When no base point matches and the contribution dict is
empty, the Python division `x / (l - 1)` has divisor zero and raises
`ZeroDivisionError`. -/
def foldEntry (orig : List Point) (acc : List Point)
    (label : String) (contribs : Contribs) :
    Except PyExc (List Point) :=
  match findBaseIdx orig.length acc label with
  | some i =>
    let base := (orig.get? i).getD default
    let cur := (acc.get? i).getD default
    let l : ℚ := contribs.length + 1
    let sx := base.x + (contribs.map (fun c => c.2.1)).sum
    let sy := base.y + (contribs.map (fun c => c.2.2)).sum
    Except.ok (acc.set i ⟨label, sx / l, sy / l, cur.errX, cur.errY⟩)
  | none =>
    if contribs.length = 0 then
      Except.error PyExc.zeroDivisionError
    else
      let l : ℚ := contribs.length + 1
      let sx := (contribs.map (fun c => c.2.1)).sum
      let sy := (contribs.map (fun c => c.2.2)).sum
      Except.ok (acc ++ [⟨label, sx / (l - 1), sy / (l - 1), 0, 0⟩])

/-- The ledger loop of `update_points_with_crowdsource`: an uncaught
exception from an iteration propagates immediately. -/
def foldLedger (orig : List Point) :
    List (String × Contribs) → List Point → Except PyExc (List Point)
  | [], acc => Except.ok acc
  | e :: rest, acc =>
    match foldEntry orig acc e.1 e.2 with
    | Except.error exc => Except.error exc
    | Except.ok acc' => foldLedger orig rest acc'

/-- `Plot.update_points_with_crowdsource`: fold every ledger entry into a
copy of the stored point list; the stored list itself is left untouched
(this function only reads the plot). An unmatched ledger label with an
empty contribution dict makes the call raise `ZeroDivisionError`. -/
def Plot.update_points_with_crowdsource (p : Plot) :
    Except PyExc (List Point) :=
  foldLedger p.points p.crowdsourced_points p.points

/-- No ledger entry triggers the `ZeroDivisionError` of the fold: each one
either matches a base point or has at least one contribution. -/
def Plot.ledgerSafe (p : Plot) : Bool :=
  p.crowdsourced_points.all (fun e =>
    (findBaseIdx p.points.length p.points e.1).isSome || !(e.2.isEmpty))

/-- A fresh `Plot` with rectangular bounds `[-10,10] × [-10,10]`, as built
by `Plot.__init__`. -/
def rectPlot : Plot :=
  ⟨"test", some "l", some "r", some "b", some "t",
   some (-10), some 10, some (-10), some 10, [], [], [], "creator", false, 0⟩

/-- The state of a `TrianglePlot` object; `__init__` fixes the numeric
bounds to `0..10`. -/
structure TrianglePlot where
  name : String
  xaxisleft : Option String
  xaxisright : Option String
  yaxistop : Option String
  minx : ℚ
  maxx : ℚ
  miny : ℚ
  maxy : ℚ
  points : List Point
  crowdsourced_points : List (String × Contribs)
  crowdsourceable : List (String × String)
  createdby : String
  custompoints : Bool
  plotId : Nat
deriving Repr, DecidableEq

/-- `TrianglePlot.__init__`: the bounds are always `0, 10, 0, 10`. -/
def mkTrianglePlot (name : String) (xaxisleft xaxisright yaxistop : Option String)
    (createdby : String) (plotId : Nat) (custompoints : Bool) : TrianglePlot :=
  ⟨name, xaxisleft, xaxisright, yaxistop, 0, 10, 0, 10, [], [], [],
   createdby, custompoints, plotId⟩

/-- `TrianglePlot.__check_sign`: the cross product
`(p1 - p3) × (p2 - p3)`. -/
def TrianglePlot.check_sign (x1 y1 x2 y2 x3 y3 : ℚ) : ℚ :=
  (x1 - x3) * (y2 - y3) - (x2 - x3) * (y1 - y3)

/-- `TrianglePlot.__check_bounds`: three cross-product signs against the
triangle `(minx,miny), (maxx/2,maxy), (maxx,miny)`; reject when the signs
are mixed. -/
def TrianglePlot.check_bounds (p : TrianglePlot) (x y : ℚ) : Bool :=
  let d1 := TrianglePlot.check_sign x y p.minx p.miny (p.maxx / 2) p.maxy
  let d2 := TrianglePlot.check_sign x y (p.maxx / 2) p.maxy p.maxx p.miny
  let d3 := TrianglePlot.check_sign x y p.maxx p.miny p.minx p.miny
  let negative := decide (d1 < 0) || decide (d2 < 0) || decide (d3 < 0)
  let positive := decide (d1 > 0) || decide (d2 > 0) || decide (d3 > 0)
  !(negative && positive)

/-- `TrianglePlot.plot_point`: validate the point shifted by all six error
combinations the code checks, then upsert by label. -/
def TrianglePlot.plot_point (p : TrianglePlot) (label : String) (x y : ℚ)
    (err_x err_y : ℚ) : (Nat × String) × TrianglePlot :=
  if !(p.check_bounds (x + err_x) (y + err_y)) ||
     !(p.check_bounds (x - err_x) (y - err_y)) ||
     !(p.check_bounds (x + err_x) y) ||
     !(p.check_bounds x (y + err_y)) ||
     !(p.check_bounds x (y - err_y)) ||
     !(p.check_bounds (x - err_x) y) then
    ((1, "Error: Plot point and error cannot be out of triangle bounds!"), p)
  else
    if p.points.findIdx (fun t => t.label == label) < p.points.length then
      ((0, ""),
        { p with points := p.points.set
                             (p.points.findIdx (fun t => t.label == label))
                             ⟨label, x, y, err_x, err_y⟩ })
    else
      ((0, ""), { p with points := p.points ++ [⟨label, x, y, err_x, err_y⟩] })

/-- The state of a `RadarPlot` object: each point stores a value vector. -/
structure RadarPlot where
  name : String
  axisLabels : List String
  points : List (String × List ℚ)
  crowdsourced_points : List (String × List (String × List ℚ))
  crowdsourceable : List (String × String)
  createdby : String
  plotId : Nat
deriving Repr, DecidableEq

/-- The reordering `vals[::-1][-1:] + vals[::-1][:-1]` that
`RadarPlot.plot_point` applies before storing when `len(vals) >= 2`
(and that `lookup_label` applies again on the way out): keep the first
element, reverse the rest. -/
def radarReorder (vals : List ℚ) : List ℚ :=
  if 2 ≤ vals.length then
    vals.reverse.drop (vals.length - 1) ++ vals.reverse.take (vals.length - 1)
  else
    vals

/-- `RadarPlot.plot_point`: length check, reorder, per-entry range check
against `[0, 10]`, then upsert by label. -/
def RadarPlot.plot_point (p : RadarPlot) (label : String) (vals : List ℚ) :
    (Nat × String) × RadarPlot :=
  if vals.length != p.axisLabels.length then
    ((1, "That list doesn't match the number of labels."), p)
  else
    if (radarReorder vals).any (fun v => decide (v > 10) || decide (v < 0)) then
      ((1, "All points must be within the bounds [0, 10]!"), p)
    else
      if p.points.findIdx (fun t => t.1 == label) < p.points.length then
        ((0, ""),
          { p with points := p.points.set
                               (p.points.findIdx (fun t => t.1 == label))
                               (label, radarReorder vals) })
      else
        ((0, ""),
          { p with points := p.points ++ [(label, radarReorder vals)] })

/-- `RadarPlot.lookup_label`: find the first point with the label and apply
the reordering again before returning its values. -/
def RadarPlot.lookup_label (p : RadarPlot) (label : String) :
    Except String (List ℚ) :=
  match p.points.find? (fun t => t.1 == label) with
  | some t => Except.ok (radarReorder t.2)
  | none => Except.error "Name not found on that plot."

/-- The mutating `Plot` operations other than `edit_plot` (which can change
the numeric bounds without revalidation). -/
inductive PlotOp where
  | plotPoint (label : String) (x y err_x err_y : ℚ)
  | removePoint (label : String)
  | addCrowdsourcePoint (id label : String) (x y : ℚ)
  | addCrowdsourceConsent (id label : String)
  | removeCrowdsourceConsent (id label : String)
  | removeCrowdsourcePoint (id label : String)

/-- The plot state after one operation (for `remove_crowdsource_consent`
the raising path leaves the object untouched). -/
def applyOp (p : Plot) (op : PlotOp) : Plot :=
  match op with
  | PlotOp.plotPoint label x y ex ey => (p.plot_point label x y ex ey).2
  | PlotOp.removePoint label => (p.remove_point label).2
  | PlotOp.addCrowdsourcePoint id label x y =>
      (p.add_crowdsource_point id label x y).2
  | PlotOp.addCrowdsourceConsent id label =>
      (p.add_crowdsource_consent id label).2
  | PlotOp.removeCrowdsourceConsent id label =>
      match p.remove_crowdsource_consent id label with
      | Except.ok r => r.2
      | Except.error _ => p
  | PlotOp.removeCrowdsourcePoint id label =>
      (p.remove_crowdsource_point id label).2

/-- Bool form of the per-point bounds condition of the invariant: the point
and its error-expanded extremes satisfy the chart's bounds predicate. -/
def ptOk (p : Plot) (t : Point) : Bool :=
  p.check_bounds t.x t.y &&
  p.check_bounds (t.x + t.errX) (t.y + t.errY) &&
  p.check_bounds (t.x + t.errX) (t.y - t.errY) &&
  p.check_bounds (t.x - t.errX) (t.y + t.errY) &&
  p.check_bounds (t.x - t.errX) (t.y - t.errY)

/-- Bool form of the bounds invariant of the spec: every stored point and
its error-expanded extremes satisfy the chart's current bounds predicate. -/
def Plot.pointsInBounds (p : Plot) : Bool :=
  p.points.all (ptOk p)

/-- A plot with one consent pair recorded by user "alice" for label "bob"
and an otherwise empty state. -/
def consentPlot : Plot :=
  { rectPlot with crowdsourceable := [("alice", "bob")] }

/-- A plot holding the base point `(1, 1)` for "bob" and one recorded
crowdsource contribution `(3, 4)` by "alice". -/
def crowdPlot : Plot :=
  { rectPlot with
    points := [⟨"bob", 1, 1, 0, 0⟩]
    crowdsourced_points := [("bob", [("alice", (3, 4))])] }

/-- The `edit_plot` argument dict `{"maxx": 4}`. -/
def shrinkArgs : PlotArgs :=
  ⟨none, none, none, none, none, none, some 4, none, none, none⟩

/-- A fresh radar plot with three axis labels. -/
def radarExample : RadarPlot :=
  ⟨"radar", ["a", "b", "c"], [], [], [], "creator", 0⟩

/-- The triangular plot of the worked example, vertices
`(0,0), (5,10), (10,0)`. -/
def triExample : TrianglePlot :=
  mkTrianglePlot "tri" (some "l") (some "r") (some "t") "creator" 1 false

/-- A plot with one recorded contribution for "bob" and no base points. -/
def noBasePlot : Plot :=
  { rectPlot with crowdsourced_points := [("bob", [("alice", (3, 4))])] }

/-- The first `orig.length` positions of `acc` carry the same
space-stripped labels as `orig` (invariant of the crowdsource fold). -/
def stripAgrees (orig acc : List Point) : Prop :=
  orig.length ≤ acc.length ∧
  ∀ i, i < orig.length →
    (acc.get? i).map (fun t => stripSpaces t.label) =
      (orig.get? i).map (fun t => stripSpaces t.label)

/-- Whether the first character list starts the second one. -/
def leadsWith : List Char → List Char → Bool
  | [], _ => true
  | _ :: _, [] => false
  | a :: ps, b :: ss => a == b && leadsWith ps ss

/-- Whether `pat` occurs as a contiguous character run of `s`. -/
def strContains (s pat : String) : Bool :=
  (List.range (s.data.length + 1)).any
    (fun i => leadsWith pat.data (s.data.drop i))

/-! ## Helper lemmas -/

theorem check_bounds_eq_true_iff (p : Plot) (x y : ℚ) :
    p.check_bounds x y = true ↔
      ((∀ m, p.minx = some m → m ≤ x) ∧ (∀ m, p.maxx = some m → x ≤ m) ∧
       (∀ m, p.miny = some m → m ≤ y) ∧ (∀ m, p.maxy = some m → y ≤ m)) := by
  unfold Plot.check_bounds
  rcases hmx : p.minx with _ | a <;> rcases hMx : p.maxx with _ | b <;>
    rcases hmy : p.miny with _ | c <;> rcases hMy : p.maxy with _ | d <;>
      simp [not_lt] <;> tauto

theorem check_bounds_mid (p : Plot) {x y ex ey : ℚ}
    (h₁ : p.check_bounds (x + ex) (y + ey) = true)
    (h₂ : p.check_bounds (x - ex) (y - ey) = true) :
    p.check_bounds x y = true ∧ p.check_bounds (x + ex) (y - ey) = true ∧
      p.check_bounds (x - ex) (y + ey) = true := by
  rw [check_bounds_eq_true_iff] at h₁ h₂
  obtain ⟨a₁, a₂, a₃, a₄⟩ := h₁
  obtain ⟨b₁, b₂, b₃, b₄⟩ := h₂
  refine ⟨?_, ?_, ?_⟩ <;> rw [check_bounds_eq_true_iff] <;>
    refine ⟨?_, ?_, ?_, ?_⟩ <;> intro m hm <;>
      first
        | linarith [a₁ m hm, b₁ m hm]
        | linarith [a₂ m hm, b₂ m hm]
        | linarith [a₃ m hm, b₃ m hm]
        | linarith [a₄ m hm, b₄ m hm]

theorem find?_update_map {β : Type} (d : List (String × β)) (k : String)
    (v : β) (h : ∃ kv ∈ d, kv.1 == k) :
    (d.map (fun kv => if kv.1 == k then (k, v) else kv)).find?
        (fun kv => kv.1 == k) = some (k, v) := by
  induction d with
  | nil => simp at h
  | cons a t ih =>
    by_cases hak : a.1 == k
    · simp only [List.map_cons, if_pos hak]
      exact List.find?_cons_of_pos _ (by simp)
    · simp only [List.map_cons, if_neg hak]
      rw [List.find?_cons_of_neg (p := fun kv : String × β => kv.1 == k) _ hak]
      apply ih
      rcases h with ⟨kv, hkv, hkvk⟩
      rcases List.mem_cons.mp hkv with rfl | hmem
      · exact absurd hkvk hak
      · exact ⟨kv, hmem, hkvk⟩

theorem dictGet_dictSet_self {β : Type} (d : List (String × β)) (k : String)
    (v : β) : dictGet (dictSet d k v) k = some v := by
  unfold dictGet dictSet
  by_cases hs : (d.find? (fun kv => kv.1 == k)).isSome
  · rw [if_pos hs, find?_update_map]
    · rfl
    · simpa using hs
  · rw [if_neg hs, List.find?_append,
        Option.not_isSome_iff_eq_none.mp hs, Option.none_or]
    simp

theorem dictGet_dictDel_self {β : Type} (d : List (String × β))
    (k : String) : dictGet (dictDel d k) k = none := by
  unfold dictGet dictDel
  rw [Option.map_eq_none', List.find?_eq_none]
  intro kv hkv
  rcases List.mem_filter.mp hkv with ⟨_, hne⟩
  simpa using hne

theorem set_get?_self {α : Type} (l : List α) (i : Nat) (a : α)
    (h : l.get? i = some a) : l.set i a = l := by
  induction l generalizing i with
  | nil => simp at h
  | cons b t ih =>
    cases i with
    | zero => simp at h; simp [h]
    | succ n => simp only [List.get?_cons_succ] at h; simp [ih n h]

theorem find?_set_findIdx {α : Type} (l : List α) (pred : α → Bool) (v : α)
    (hv : pred v = true) (h : l.findIdx pred < l.length) :
    (l.set (l.findIdx pred) v).find? pred = some v := by
  induction l with
  | nil => simp at h
  | cons a t ih =>
    by_cases hpa : pred a
    · rw [List.findIdx_cons, hpa]
      simpa using List.find?_cons_of_pos _ hv
    · rw [List.findIdx_cons] at h ⊢
      simp only [hpa, cond_false, List.length_cons] at h ⊢
      rw [List.set_cons_succ,
          List.find?_cons_of_neg (p := pred) _ (by simp [hpa])]
      exact ih (by omega)

theorem find?_eraseP_of_nodup (l : List Point) (label : String)
    (hnd : (l.map Point.label).Nodup) :
    (l.eraseP (fun t => t.label == label)).find?
      (fun t => t.label == label) = none := by
  induction l with
  | nil => simp
  | cons a t ih =>
    rw [List.map_cons, List.nodup_cons] at hnd
    by_cases ha : a.label == label
    · rw [List.eraseP_cons_of_pos (p := fun t : Point => t.label == label) ha,
          List.find?_eq_none]
      intro u hu hul
      have : a.label ∈ t.map Point.label := by
        rw [eq_of_beq ha, ← eq_of_beq hul]
        exact List.mem_map_of_mem Point.label hu
      exact hnd.1 this
    · rw [List.eraseP_cons_of_neg (p := fun t : Point => t.label == label) ha,
          List.find?_cons_of_neg (p := fun t : Point => t.label == label) _ ha]
      exact ih hnd.2

theorem radarReorder_cons (a : ℚ) (t : List ℚ) (h : t ≠ []) :
    radarReorder (a :: t) = a :: t.reverse := by
  unfold radarReorder
  have hlen : 2 ≤ (a :: t).length := by
    cases t with
    | nil => exact absurd rfl h
    | cons b u => simp [List.length_cons]
  rw [if_pos hlen]
  have hl : (a :: t).length - 1 = t.length := by simp
  rw [hl, List.reverse_cons,
      List.drop_left' (by simp), List.take_left' (by simp)]
  rfl

theorem radarReorder_involutive (l : List ℚ) :
    radarReorder (radarReorder l) = l := by
  match l with
  | [] => rfl
  | [a] => rfl
  | a :: b :: t =>
    rw [radarReorder_cons a (b :: t) (by simp),
        radarReorder_cons a (b :: t).reverse (by simp),
        List.reverse_reverse]

theorem mem_radarReorder {v : ℚ} {l : List ℚ} (h : v ∈ radarReorder l) :
    v ∈ l := by
  unfold radarReorder at h
  by_cases hl : 2 ≤ l.length
  · rw [if_pos hl] at h
    rcases List.mem_append.mp h with hd | ht
    · exact List.mem_reverse.mp (List.mem_of_mem_drop hd)
    · exact List.mem_reverse.mp (List.mem_of_mem_take ht)
  · rwa [if_neg hl] at h

theorem length_radarReorder (l : List ℚ) :
    (radarReorder l).length = l.length := by
  unfold radarReorder
  by_cases hl : 2 ≤ l.length
  · rw [if_pos hl]
    simp [List.length_append, List.length_drop, List.length_take]
  · rw [if_neg hl]

/-! ## Claim theorems -/

/-- C1: `plot_point` succeeds (code 0) iff the point and its error-expanded
extremes all satisfy the bounds predicate; on violation it returns code 1
with a message carrying the current bounds; in particular for bounds
`[-10,10] × [-10,10]`, `plot_point("A", 5, 5)` succeeds and
`plot_point("B", 11, 0)` fails with a message mentioning `[-10, 10]`. -/
theorem plot_point_success_iff_bounds :
    (∀ (p : Plot) (label : String) (x y ex ey : ℚ),
      ((p.plot_point label x y ex ey).1.1 = 0 ↔
        (p.check_bounds x y = true ∧
         p.check_bounds (x + ex) (y + ey) = true ∧
         p.check_bounds (x + ex) (y - ey) = true ∧
         p.check_bounds (x - ex) (y + ey) = true ∧
         p.check_bounds (x - ex) (y - ey) = true)) ∧
      ((p.plot_point label x y ex ey).1.1 = 1 →
        (p.plot_point label x y ex ey).1.2 = p.boundsErrMsg)) ∧
    (rectPlot.plot_point "A" 5 5 0 0).1.1 = 0 ∧
    (rectPlot.plot_point "B" 11 0 0 0).1.1 = 1 ∧
    strContains (rectPlot.plot_point "B" 11 0 0 0).1.2 "[-10, 10]" = true := by
  have code : ∀ (p : Plot) (label : String) (x y ex ey : ℚ),
      (p.plot_point label x y ex ey).1 =
        (if p.check_bounds (x + ex) (y + ey) && p.check_bounds (x - ex) (y - ey)
         then ((0 : Nat), "")
         else (1, p.boundsErrMsg)) := by
    intro p label x y ex ey
    unfold Plot.plot_point
    cases h₁ : p.check_bounds (x + ex) (y + ey) <;>
      cases h₂ : p.check_bounds (x - ex) (y - ey) <;>
        simp [h₁, h₂] <;> split <;> rfl
  refine ⟨fun p label x y ex ey => ⟨?_, ?_⟩, ?_, ?_, ?_⟩
  · rw [show (p.plot_point label x y ex ey).1.1 =
        (if p.check_bounds (x + ex) (y + ey) && p.check_bounds (x - ex) (y - ey)
         then ((0 : Nat), "")
         else (1, p.boundsErrMsg)).1 from congrArg Prod.fst (code p label x y ex ey)]
    by_cases hb : (p.check_bounds (x + ex) (y + ey) &&
        p.check_bounds (x - ex) (y - ey)) = true
    · rw [if_pos hb]
      obtain ⟨hb₁, hb₂⟩ := Bool.and_eq_true_iff.mp hb
      obtain ⟨hm, hc₁, hc₂⟩ := check_bounds_mid p hb₁ hb₂
      simp [hb₁, hb₂, hm, hc₁, hc₂]
    · rw [if_neg hb]
      constructor
      · intro h; exact absurd h (by simp)
      · rintro ⟨-, h₁, -, -, h₂⟩
        exact absurd (by rw [h₁, h₂] : (p.check_bounds (x + ex) (y + ey) &&
          p.check_bounds (x - ex) (y - ey)) = (true && true)) (by simpa using hb)
  · rw [show (p.plot_point label x y ex ey).1 =
        (if p.check_bounds (x + ex) (y + ey) && p.check_bounds (x - ex) (y - ey)
         then ((0 : Nat), "")
         else (1, p.boundsErrMsg)) from code p label x y ex ey]
    split
    · intro h; simp at h
    · intro _; rfl
  · decide
  · decide
  · decide

/-- Witness for C1 at the concrete failing input. -/
theorem plot_point_success_iff_bounds_witness :
    (rectPlot.plot_point "B" 11 0 0 0).1.2 = rectPlot.boundsErrMsg :=
  (plot_point_success_iff_bounds.1 rectPlot "B" 11 0 0 0).2 (by decide)

/-- C4: a second in-bounds `plot_point` with an existing label replaces the
entry in place at the first matching position, keeping the point count; and
`plot_point` preserves per-chart label uniqueness. -/
theorem plot_point_overwrite_in_place :
    (∀ (p : Plot) (label : String) (x y ex ey : ℚ),
      (p.plot_point label x y ex ey).1.1 = 0 →
      (∃ t ∈ p.points, t.label = label) →
      ((p.plot_point label x y ex ey).2.points =
         p.points.set (p.points.findIdx (fun t => t.label == label))
           ⟨label, x, y, ex, ey⟩ ∧
       (p.plot_point label x y ex ey).2.points.length = p.points.length)) ∧
    (∀ (p : Plot) (label : String) (x y ex ey : ℚ),
      (p.points.map Point.label).Nodup →
      ((p.plot_point label x y ex ey).2.points.map Point.label).Nodup) := by
  constructor
  · intro p label x y ex ey h0 hmem
    have hex : ∃ t ∈ p.points, (fun t : Point => t.label == label) t := by
      rcases hmem with ⟨t, ht, rfl⟩; exact ⟨t, ht, by simp⟩
    have hlt := List.findIdx_lt_length_of_exists hex
    unfold Plot.plot_point at h0 ⊢
    by_cases hc : (!p.check_bounds (x + ex) (y + ey) ||
        !p.check_bounds (x - ex) (y - ey)) = true
    · rw [if_pos hc] at h0
      simp at h0
    · rw [if_neg hc, if_pos hlt]
      exact ⟨rfl, by simp⟩
  · intro p label x y ex ey hnd
    unfold Plot.plot_point
    split
    · exact hnd
    · split
      case isTrue hlt =>
        have hpred := List.findIdx_getElem (p := fun t : Point => t.label == label)
          (w := hlt)
        simp only [List.map_set]
        have hget : (p.points.map Point.label).get?
            (p.points.findIdx (fun t : Point => t.label == label)) = some label := by
          rw [List.get?_map]
          rw [List.get?_eq_getElem?, List.getElem?_eq_getElem hlt]
          simp [eq_of_beq hpred]
        simpa [set_get?_self _ _ _ hget] using hnd
      case isFalse hge =>
        have hnone : ∀ t ∈ p.points, ¬(t.label = label) := by
          intro t ht heq
          exact hge (List.findIdx_lt_length_of_exists ⟨t, ht, by simp [heq]⟩)
        simp only [List.map_append, List.map_cons, List.map_nil]
        rw [List.nodup_append]
        refine ⟨hnd, List.nodup_singleton _, ?_⟩
        intro a ha hb
        simp only [List.mem_singleton] at hb
        rcases List.mem_map.mp ha with ⟨t, ht, rfl⟩
        exact hnone t ht hb

/-- C5: `remove_point` errors (code 1) on an absent label; on a present
label it succeeds (code 0), a subsequent `lookup_label` returns the
not-found error, and the crowdsource ledger entry for the label is gone. -/
theorem remove_point_spec :
    (∀ (p : Plot) (label : String),
      (∀ t ∈ p.points, t.label ≠ label) →
      p.remove_point label =
        ((1, "Error: You haven't plotted yourself in this plot."), p)) ∧
    (∀ (p : Plot) (label : String),
      (∃ t ∈ p.points, t.label = label) →
      (p.points.map Point.label).Nodup →
      ((p.remove_point label).1.1 = 0 ∧
       (p.remove_point label).2.lookup_label label =
         Except.error "Name not found on that plot." ∧
       dictGet (p.remove_point label).2.crowdsourced_points label = none)) := by
  constructor
  · intro p label h
    unfold Plot.remove_point
    rw [if_pos]
    rw [List.all_eq_true]
    intro t ht
    simpa using h t ht
  · intro p label hmem hnd
    have hall : ¬(p.points.all (fun t => t.label != label) = true) := by
      rw [List.all_eq_true]
      intro hcontra
      rcases hmem with ⟨t, ht, rfl⟩
      simpa using hcontra t ht
    unfold Plot.remove_point
    rw [if_neg hall]
    refine ⟨rfl, ?_, ?_⟩
    · show Plot.lookup_label _ label = _
      unfold Plot.lookup_label
      rw [show (p.points.eraseP (fun t => t.label == label)).find?
            (fun t => t.label == label) = none
          from find?_eraseP_of_nodup p.points label hnd]
    · show dictGet (if (dictGet p.crowdsourced_points label).isSome then
          dictDel p.crowdsourced_points label else p.crowdsourced_points)
          label = none
      by_cases hs : (dictGet p.crowdsourced_points label).isSome
      · rw [if_pos hs]
        exact dictGet_dictDel_self _ _
      · rw [if_neg hs]
        exact Option.not_isSome_iff_eq_none.mp hs

/-- C5 witness: removing an unplotted label errors; removing the one
plotted point of a concrete chart succeeds. -/
theorem remove_point_spec_witness :
    rectPlot.remove_point "zed" =
      ((1, "Error: You haven't plotted yourself in this plot."), rectPlot) ∧
    ((crowdPlot.remove_point "bob").1.1 = 0 ∧
     (crowdPlot.remove_point "bob").2.lookup_label "bob" =
       Except.error "Name not found on that plot." ∧
     dictGet (crowdPlot.remove_point "bob").2.crowdsourced_points "bob" =
       none) :=
  ⟨remove_point_spec.1 rectPlot "zed" (by intro t ht; simp [rectPlot] at ht),
   remove_point_spec.2 crowdPlot "bob"
     ⟨⟨"bob", 1, 1, 0, 0⟩, by decide, rfl⟩ (by decide)⟩

/-- C2 counterexample: with consent recorded only by `("alice", "bob")`,
a contribution by the distinct contributor "carol" for label "bob" is
accepted (code 0) and stores a ledger entry, although no consent for the
exact pair `("carol", "bob")` exists. -/
theorem add_crowdsource_point_exact_pair_cex :
    ("carol", "bob") ∉ consentPlot.crowdsourceable ∧
    (consentPlot.add_crowdsource_point "carol" "bob" 0 0).1.1 = 0 ∧
    (consentPlot.add_crowdsource_point "carol" "bob" 0 0).2.crowdsourced_points
      = [("bob", [("alice", (0, 0))])] := by
  refine ⟨by decide, by decide, by decide⟩

/-- C2 as amended: `add_crowdsource_point` returns code 1 and leaves the
plot (hence the ledger) unchanged whenever no consent pair with that label
was recorded by anyone — the code keys consent by label only, not by the
contributing id. -/
theorem add_crowdsource_point_no_label_consent (p : Plot)
    (id label : String) (x y : ℚ)
    (h : ∀ pr ∈ p.crowdsourceable, pr.2 ≠ label) :
    p.add_crowdsource_point id label x y =
      ((1, "That person (" ++ label ++
           ") has not consented to being crowdsource plotted!"), p) := by
  unfold Plot.add_crowdsource_point
  have hany : p.crowdsourceable.any (fun pr => pr.2 == label) = false := by
    rw [List.any_eq_false]
    intro pr hpr
    simpa using h pr hpr
  rw [hany]
  rfl

/-- C2 witness: a fresh chart has no consent pairs, so any contribution is
rejected. -/
theorem add_crowdsource_point_no_label_consent_witness :
    rectPlot.add_crowdsource_point "alice" "bob" 1 2 =
      ((1, "That person (" ++ "bob" ++
           ") has not consented to being crowdsource plotted!"), rectPlot) :=
  add_crowdsource_point_no_label_consent rectPlot "alice" "bob" 1 2
    (by intro pr hpr; simp [rectPlot] at hpr)

/-- C4 witness: overwriting the plotted point "bob" of a concrete chart in
place. -/
theorem plot_point_overwrite_in_place_witness :
    ((crowdPlot.plot_point "bob" 2 3 0 0).2.points =
       crowdPlot.points.set 0 ⟨"bob", 2, 3, 0, 0⟩ ∧
     (crowdPlot.plot_point "bob" 2 3 0 0).2.points.length =
       crowdPlot.points.length) ∧
    ((crowdPlot.plot_point "bob" 2 3 0 0).2.points.map Point.label).Nodup :=
  ⟨plot_point_overwrite_in_place.1 crowdPlot "bob" 2 3 0 0 (by decide)
      ⟨⟨"bob", 1, 1, 0, 0⟩, by decide, rfl⟩,
   plot_point_overwrite_in_place.2 crowdPlot "bob" 2 3 0 0 (by decide)⟩

/-- C6 (code bug): on a constructor-created chart whose consent list does
not contain the exact pair, `remove_crowdsource_consent` raises an uncaught
`ValueError` (the code catches only `AttributeError`), instead of returning
the `(1, message)` result; when the pair is present it removes it and
returns code 0. -/
theorem remove_crowdsource_consent_raises :
    rectPlot.remove_crowdsource_consent "alice" "bob" =
      Except.error PyExc.valueError ∧
    consentPlot.remove_crowdsource_consent "alice" "bob" =
      Except.ok ((0, "You have removed your consent for that plot."),
        rectPlot) := by
  constructor
  · rfl
  · rfl

/-- C7 counterexample: `remove_crowdsource_point` on a label with no ledger
entry reports code 1 but inserts an empty ledger entry for that label, so
the crowdsource ledger changes and a subsequent `get_crowdsourced_points`
returns code 0 with an empty contribution set instead of the error. -/
theorem remove_crowdsource_point_mutates_cex :
    (rectPlot.remove_crowdsource_point "alice" "bob").1.1 = 1 ∧
    (rectPlot.remove_crowdsource_point "alice" "bob").2.crowdsourced_points =
      [("bob", [])] ∧
    (rectPlot.remove_crowdsource_point "alice" "bob").2.get_crowdsourced_points
      "bob" = Except.ok [] ∧
    rectPlot.get_crowdsourced_points "bob" =
      Except.error "No one has crowdsourced you on that plot!" := by
  exact ⟨rfl, rfl, rfl, rfl⟩

/-- C7 as amended: every code-1 validation failure of `plot_point`,
`remove_point`, `add_crowdsource_point`, and the missing-contributor path
of `remove_crowdsource_point` leaves the chart unchanged; the exception is
the missing-label path of `remove_crowdsource_point`, which stores an empty
inner dict for the label before returning code 1, after which
`get_crowdsourced_points` returns code 0 with no contributions. -/
theorem failure_leaves_state_unchanged :
    (∀ (p : Plot) (label : String) (x y ex ey : ℚ),
      (p.plot_point label x y ex ey).1.1 = 1 →
      (p.plot_point label x y ex ey).2 = p) ∧
    (∀ (p : Plot) (label : String),
      (p.remove_point label).1.1 = 1 → (p.remove_point label).2 = p) ∧
    (∀ (p : Plot) (id label : String) (x y : ℚ),
      (p.add_crowdsource_point id label x y).1.1 = 1 →
      (p.add_crowdsource_point id label x y).2 = p) ∧
    (∀ (p : Plot) (id label : String) (inner : Contribs),
      dictGet p.crowdsourced_points label = some inner →
      dictGet inner id = none →
      p.remove_crowdsource_point id label =
        ((1, "You haven't made a crowdsource contribution for that label yet!"),
          p)) ∧
    (∀ (p : Plot) (id label : String),
      dictGet p.crowdsourced_points label = none →
      ((p.remove_crowdsource_point id label).1.1 = 1 ∧
       (p.remove_crowdsource_point id label).2.crowdsourced_points =
         dictSet p.crowdsourced_points label [] ∧
       (p.remove_crowdsource_point id label).2.get_crowdsourced_points label =
         Except.ok [])) := by
  refine ⟨?_, ?_, ?_, ?_, ?_⟩
  · intro p label x y ex ey
    unfold Plot.plot_point
    split
    · intro _; rfl
    · split
      · intro h; simp at h
      · intro h; simp at h
  · intro p label
    unfold Plot.remove_point
    split
    · intro _; rfl
    · intro h; simp at h
  · intro p id label x y
    unfold Plot.add_crowdsource_point
    split
    · intro _; rfl
    · split
      · intro _; rfl
      · intro h; simp at h
  · intro p id label inner hlab hid
    unfold Plot.remove_crowdsource_point
    simp only [hlab, hid]
  · intro p id label hlab
    unfold Plot.remove_crowdsource_point
    rw [hlab]
    refine ⟨rfl, rfl, ?_⟩
    show Plot.get_crowdsourced_points _ label = _
    unfold Plot.get_crowdsourced_points
    show (match dictGet (dictSet p.crowdsourced_points label []) label with
          | none => Except.error "No one has crowdsourced you on that plot!"
          | some inner => Except.ok inner) = Except.ok []
    rw [dictGet_dictSet_self]

/-- C7 amended witness: each failure path exercised at a concrete chart. -/
theorem failure_leaves_state_unchanged_witness :
    (rectPlot.plot_point "B" 11 0 0 0).2 = rectPlot ∧
    (rectPlot.remove_point "zed").2 = rectPlot ∧
    (rectPlot.add_crowdsource_point "alice" "bob" 0 0).2 = rectPlot ∧
    noBasePlot.remove_crowdsource_point "carol" "bob" =
      ((1, "You haven't made a crowdsource contribution for that label yet!"),
        noBasePlot) ∧
    ((rectPlot.remove_crowdsource_point "alice" "bob").1.1 = 1 ∧
     (rectPlot.remove_crowdsource_point "alice" "bob").2.crowdsourced_points =
       dictSet rectPlot.crowdsourced_points "bob" [] ∧
     (rectPlot.remove_crowdsource_point "alice" "bob").2.get_crowdsourced_points
       "bob" = Except.ok []) :=
  ⟨failure_leaves_state_unchanged.1 rectPlot "B" 11 0 0 0 (by decide),
   failure_leaves_state_unchanged.2.1 rectPlot "zed" (by decide),
   failure_leaves_state_unchanged.2.2.1 rectPlot "alice" "bob" 0 0 (by decide),
   failure_leaves_state_unchanged.2.2.2.1 noBasePlot "carol" "bob"
     [("alice", (3, 4))] (by decide) (by decide),
   failure_leaves_state_unchanged.2.2.2.2 rectPlot "alice" "bob" (by decide)⟩

/-- C9: on the triangular chart with vertices `(0,0), (5,10), (10,0)` and
the three cross-product sign checks, the point `(5,5)` is inside and
accepted, while `(9,9)` is outside and rejected with the triangle-bounds
error. -/
theorem triangle_plot_point_examples :
    triExample.check_bounds 5 5 = true ∧
    (triExample.plot_point "A" 5 5 0 0).1.1 = 0 ∧
    triExample.check_bounds 9 9 = false ∧
    triExample.plot_point "B" 9 9 0 0 =
      ((1, "Error: Plot point and error cannot be out of triangle bounds!"),
        triExample) := by
  exact ⟨by decide, by decide, by decide, by decide⟩

/-- C10: for a value list matching the axis-label count with all entries in
`[0, 10]`, `RadarPlot.plot_point` succeeds and a subsequent `lookup_label`
returns exactly the original list — the store-time reordering (first
element kept, rest reversed) is an involution that `lookup_label` applies
again. -/
theorem radar_plot_point_lookup_roundtrip (p : RadarPlot) (label : String)
    (vals : List ℚ) (hlen : vals.length = p.axisLabels.length)
    (hb : ∀ v ∈ vals, 0 ≤ v ∧ v ≤ 10) :
    (p.plot_point label vals).1.1 = 0 ∧
    (p.plot_point label vals).2.lookup_label label = Except.ok vals := by
  have hany : ((radarReorder vals).any
      (fun v => decide (v > 10) || decide (v < 0))) = false := by
    rw [List.any_eq_false]
    intro v hv
    rcases hb v (mem_radarReorder hv) with ⟨h0, h10⟩
    simp only [Bool.or_eq_true, decide_eq_true_eq, not_or, not_lt]
    exact ⟨h10, h0⟩
  unfold RadarPlot.plot_point RadarPlot.lookup_label
  rw [if_neg (by simp [hlen]), if_neg (by simp [hany])]
  by_cases hidx : p.points.findIdx (fun t => t.1 == label) < p.points.length
  · rw [if_pos hidx]
    refine ⟨rfl, ?_⟩
    show (match (p.points.set (p.points.findIdx (fun t => t.1 == label))
            (label, radarReorder vals)).find? (fun t => t.1 == label) with
          | some t => Except.ok (radarReorder t.2)
          | none => Except.error "Name not found on that plot.") = _
    rw [find?_set_findIdx p.points (fun t => t.1 == label)
          (label, radarReorder vals) (by simp) hidx]
    show Except.ok (radarReorder (radarReorder vals)) = _
    rw [radarReorder_involutive]
  · rw [if_neg hidx]
    refine ⟨rfl, ?_⟩
    have hnone : p.points.find? (fun t => t.1 == label) = none := by
      rw [List.find?_eq_none]
      intro t ht hteq
      exact hidx (List.findIdx_lt_length_of_exists ⟨t, ht, hteq⟩)
    show (match (p.points ++ [(label, radarReorder vals)]).find?
            (fun t => t.1 == label) with
          | some t => Except.ok (radarReorder t.2)
          | none => Except.error "Name not found on that plot.") = _
    rw [List.find?_append, hnone, Option.none_or,
        List.find?_cons_of_pos _ (by simp)]
    show Except.ok (radarReorder (radarReorder vals)) = _
    rw [radarReorder_involutive]

/-- C10 witness: round trip at a concrete radar chart. -/
theorem radar_plot_point_lookup_roundtrip_witness :
    (radarExample.plot_point "A" [1, 2, 3]).1.1 = 0 ∧
    (radarExample.plot_point "A" [1, 2, 3]).2.lookup_label "A" =
      Except.ok [1, 2, 3] :=
  radar_plot_point_lookup_roundtrip radarExample "A" [1, 2, 3] (by decide)
    (by decide)

theorem ptOk_of_checks (p : Plot) (label : String) (x y ex ey : ℚ)
    (h₁ : p.check_bounds (x + ex) (y + ey) = true)
    (h₂ : p.check_bounds (x - ex) (y - ey) = true) :
    ptOk p ⟨label, x, y, ex, ey⟩ = true := by
  obtain ⟨hm, hc₁, hc₂⟩ := check_bounds_mid p h₁ h₂
  unfold ptOk
  simp only [hm, h₁, h₂, hc₁, hc₂, Bool.and_self]

theorem applyOp_preserves_pointsInBounds (p : Plot) (op : PlotOp)
    (hp : p.pointsInBounds = true) :
    (applyOp p op).pointsInBounds = true := by
  unfold Plot.pointsInBounds at hp
  rw [List.all_eq_true] at hp
  cases op with
  | plotPoint label x y ex ey =>
    show ((p.plot_point label x y ex ey).2).pointsInBounds = true
    unfold Plot.plot_point
    by_cases hc : (!p.check_bounds (x + ex) (y + ey) ||
        !p.check_bounds (x - ex) (y - ey)) = true
    · rw [if_pos hc]
      unfold Plot.pointsInBounds
      rw [List.all_eq_true]
      exact hp
    · have hc' := hc
      simp only [Bool.or_eq_true, Bool.not_eq_true', not_or,
        Bool.not_eq_false] at hc'
      obtain ⟨h₁, h₂⟩ := hc'
      rw [if_neg hc]
      split
      · show (p.points.set (p.points.findIdx (fun t => t.label == label))
            (⟨label, x, y, ex, ey⟩ : Point)).all (ptOk p) = true
        rw [List.all_eq_true]
        intro t ht
        rcases List.mem_or_eq_of_mem_set ht with hmem | rfl
        · exact hp t hmem
        · exact ptOk_of_checks p label x y ex ey h₁ h₂
      · show (p.points ++ [(⟨label, x, y, ex, ey⟩ : Point)]).all (ptOk p) = true
        rw [List.all_eq_true]
        intro t ht
        rcases List.mem_append.mp ht with hmem | hmem
        · exact hp t hmem
        · rw [List.mem_singleton.mp hmem]
          exact ptOk_of_checks p label x y ex ey h₁ h₂
  | removePoint label =>
    show ((p.remove_point label).2).pointsInBounds = true
    unfold Plot.remove_point
    split
    · unfold Plot.pointsInBounds
      rw [List.all_eq_true]
      exact hp
    · show (p.points.eraseP (fun t => t.label == label)).all (ptOk p) = true
      rw [List.all_eq_true]
      intro t ht
      exact hp t (List.eraseP_subset _ ht)
  | addCrowdsourcePoint id label x y =>
    show ((p.add_crowdsource_point id label x y).2).pointsInBounds = true
    unfold Plot.add_crowdsource_point
    split
    · unfold Plot.pointsInBounds
      rw [List.all_eq_true]
      exact hp
    · split
      · unfold Plot.pointsInBounds
        rw [List.all_eq_true]
        exact hp
      · show p.points.all (ptOk p) = true
        rw [List.all_eq_true]
        exact hp
  | addCrowdsourceConsent id label =>
    show ((p.add_crowdsource_consent id label).2).pointsInBounds = true
    unfold Plot.add_crowdsource_consent
    split
    · show p.points.all (ptOk p) = true
      rw [List.all_eq_true]
      exact hp
    · show p.points.all (ptOk p) = true
      rw [List.all_eq_true]
      exact hp
  | removeCrowdsourceConsent id label =>
    show (match p.remove_crowdsource_consent id label with
          | Except.ok r => r.2
          | Except.error _ => p).pointsInBounds = true
    unfold Plot.remove_crowdsource_consent
    by_cases hm : (id, label) ∈ p.crowdsourceable
    · rw [if_pos hm]
      show p.points.all (ptOk p) = true
      rw [List.all_eq_true]
      exact hp
    · rw [if_neg hm]
      show p.points.all (ptOk p) = true
      rw [List.all_eq_true]
      exact hp
  | removeCrowdsourcePoint id label =>
    show ((p.remove_crowdsource_point id label).2).pointsInBounds = true
    unfold Plot.remove_crowdsource_point
    split
    · show p.points.all (ptOk p) = true
      rw [List.all_eq_true]
      exact hp
    · split
      · show p.points.all (ptOk p) = true
        rw [List.all_eq_true]
        exact hp
      · show p.points.all (ptOk p) = true
        rw [List.all_eq_true]
        exact hp

/-- C8 as amended: over `plot_point`, `remove_point`, and all crowdsource
operations (everything except `edit_plot`), the invariant "every stored
point together with its error margins lies within the chart's current
bounds predicate" is preserved from any state satisfying it;
`edit_plot` can shrink the numeric bounds without revalidating stored
points and thereby break the invariant (see the counterexample). -/
theorem points_in_bounds_invariant (p : Plot) (ops : List PlotOp)
    (hp : p.pointsInBounds = true) :
    (ops.foldl applyOp p).pointsInBounds = true := by
  induction ops generalizing p with
  | nil => exact hp
  | cons op rest ih =>
    exact ih _ (applyOp_preserves_pointsInBounds p op hp)

/-- C8 counterexample: plot `(5,5)` inside `[-10,10]²`, then
`edit_plot {"maxx": 4}` — the stored point now violates the current
bounds predicate, refuting the "at all times" claim for sequences that
include `edit_plot`. -/
theorem edit_plot_breaks_invariant_cex :
    (⟨"A", 5, 5, 0, 0⟩ : Point) ∈
      ((rectPlot.plot_point "A" 5 5 0 0).2.edit_plot shrinkArgs).points ∧
    ((rectPlot.plot_point "A" 5 5 0 0).2.edit_plot shrinkArgs).pointsInBounds
      = false :=
  ⟨by decide, by decide⟩

/-- C8 witness: a concrete operation sequence on a fresh chart keeps the
invariant. -/
theorem points_in_bounds_invariant_witness :
    (([PlotOp.plotPoint "A" 5 5 1 1, PlotOp.plotPoint "B" 11 0 0 0,
       PlotOp.addCrowdsourceConsent "alice" "bob",
       PlotOp.addCrowdsourcePoint "carol" "bob" 2 2,
       PlotOp.removeCrowdsourcePoint "zed" "bob",
       PlotOp.removePoint "zed"].foldl applyOp rectPlot).pointsInBounds
      = true) :=
  points_in_bounds_invariant rectPlot
    [PlotOp.plotPoint "A" 5 5 1 1, PlotOp.plotPoint "B" 11 0 0 0,
     PlotOp.addCrowdsourceConsent "alice" "bob",
     PlotOp.addCrowdsourcePoint "carol" "bob" 2 2,
     PlotOp.removeCrowdsourcePoint "zed" "bob",
     PlotOp.removePoint "zed"] (by decide)

theorem stripSpaces_idem (s : String) :
    stripSpaces (stripSpaces s) = stripSpaces s := by
  unfold stripSpaces
  simp [List.filter_filter]

theorem find?_congr_pred {α : Type} (l : List α) (p q : α → Bool)
    (h : ∀ a ∈ l, p a = q a) : l.find? p = l.find? q := by
  induction l with
  | nil => rfl
  | cons a t ih =>
    have ha := h a (List.mem_cons_self a t)
    by_cases hpa : p a = true
    · rw [List.find?_cons_of_pos (p := p) _ hpa,
          List.find?_cons_of_pos (p := q) _ (ha ▸ hpa)]
    · rw [List.find?_cons_of_neg (p := p) _ hpa,
          List.find?_cons_of_neg (p := q) _ (fun hq => hpa (ha ▸ hq)),
          ih (fun a ha' => h a (List.mem_cons_of_mem _ ha'))]

theorem findBaseIdx_congr (orig acc : List Point) (label : String)
    (h : stripAgrees orig acc) :
    findBaseIdx orig.length acc label = findBaseIdx orig.length orig label := by
  unfold findBaseIdx
  apply find?_congr_pred
  intro i hi
  rw [List.mem_range] at hi
  have hlab := h.2 i hi
  rcases ha : acc.get? i with _ | t <;> rcases ho : orig.get? i with _ | u <;>
    rw [ha, ho] at hlab <;> simp at hlab ⊢
  rw [hlab]

theorem findBaseIdx_some_facts (n : Nat) (acc : List Point) (label : String)
    (i : Nat) (h : findBaseIdx n acc label = some i) :
    i < n ∧ stripSpaces (((acc.get? i).map Point.label).getD "") = label := by
  unfold findBaseIdx at h
  have hm := List.mem_of_find?_eq_some h
  have hp := List.find?_some h
  rw [List.mem_range] at hm
  exact ⟨hm, by simpa using hp⟩

theorem stripAgrees_refl (orig : List Point) : stripAgrees orig orig :=
  ⟨Nat.le_refl _, fun _ _ => rfl⟩

theorem stripAgrees_foldEntryT (orig acc : List Point) (label : String)
    (c : Contribs) (h : stripAgrees orig acc) :
    stripAgrees orig (foldEntryT orig acc label c) := by
  unfold foldEntryT
  rcases hf : findBaseIdx orig.length acc label with _ | i
  · refine ⟨?_, ?_⟩
    · rw [List.length_append]
      exact Nat.le_trans h.1 (Nat.le_add_right _ _)
    · intro j hj
      rw [List.get?_append (Nat.lt_of_lt_of_le hj h.1)]
      exact h.2 j hj
  · obtain ⟨hin, hstrip⟩ := findBaseIdx_some_facts _ _ _ _ hf
    have hilen : i < acc.length := Nat.lt_of_lt_of_le hin h.1
    refine ⟨by rw [List.length_set]; exact h.1, ?_⟩
    intro j hj
    by_cases hij : i = j
    · subst hij
      have hsome : ¬(acc.get? i = none) := by
        rw [List.get?_eq_none]
        omega
      rcases ha : acc.get? i with _ | t
      · exact absurd ha hsome
      · rw [ha] at hstrip
        simp only [Option.map_some', Option.getD_some] at hstrip
        have horig := h.2 i hj
        rw [ha] at horig
        rw [List.get?_eq_getElem?, List.getElem?_set_self hilen]
        rw [← horig]
        simp only [Option.map_some', Option.some.injEq]
        rw [← hstrip, stripSpaces_idem]
    · rw [List.get?_eq_getElem?, List.getElem?_set_ne hij,
          ← List.get?_eq_getElem?]
      exact h.2 j hj

theorem stripAgrees_foldl (orig : List Point)
    (ledger : List (String × Contribs)) (acc : List Point)
    (h : stripAgrees orig acc) :
    stripAgrees orig
      (ledger.foldl (fun a e => foldEntryT orig a e.1 e.2) acc) := by
  induction ledger generalizing acc with
  | nil => exact h
  | cons e rest ih => exact ih _ (stripAgrees_foldEntryT _ _ _ _ h)

theorem foldl_get?_low (orig : List Point)
    (ledger : List (String × Contribs)) (acc : List Point) (i : Nat)
    (hi : i < orig.length) (h : stripAgrees orig acc)
    (hno : ∀ e ∈ ledger, findBaseIdx orig.length orig e.1 ≠ some i) :
    (ledger.foldl (fun a e => foldEntryT orig a e.1 e.2) acc).get? i =
      acc.get? i := by
  induction ledger generalizing acc with
  | nil => rfl
  | cons e rest ih =>
    rw [List.foldl_cons,
        ih _ (stripAgrees_foldEntryT _ _ _ _ h)
          (fun e' he' => hno e' (List.mem_cons_of_mem _ he'))]
    unfold foldEntryT
    rcases hf : findBaseIdx orig.length acc e.1 with _ | j
    · rw [List.get?_append (Nat.lt_of_lt_of_le hi h.1)]
    · have hj : findBaseIdx orig.length orig e.1 = some j := by
        rw [← findBaseIdx_congr orig acc e.1 h]
        exact hf
      have hji : j ≠ i := fun hji =>
        hno e (List.mem_cons_self e rest) (hji ▸ hj)
      rw [List.get?_eq_getElem?, List.getElem?_set_ne hji,
          ← List.get?_eq_getElem?]

theorem length_foldEntryT_ge (orig acc : List Point) (label : String)
    (c : Contribs) : acc.length ≤ (foldEntryT orig acc label c).length := by
  unfold foldEntryT
  rcases findBaseIdx orig.length acc label with _ | i
  · rw [List.length_append]
    exact Nat.le_add_right _ _
  · rw [List.length_set]

theorem foldl_get?_high (orig : List Point)
    (ledger : List (String × Contribs)) (acc : List Point) (k : Nat)
    (hk : orig.length ≤ k) (hklen : k < acc.length)
    (h : stripAgrees orig acc) :
    (ledger.foldl (fun a e => foldEntryT orig a e.1 e.2) acc).get? k =
      acc.get? k := by
  induction ledger generalizing acc with
  | nil => rfl
  | cons e rest ih =>
    rw [List.foldl_cons,
        ih _ (Nat.lt_of_lt_of_le hklen (length_foldEntryT_ge _ _ _ _))
          (stripAgrees_foldEntryT _ _ _ _ h)]
    unfold foldEntryT
    rcases hf : findBaseIdx orig.length acc e.1 with _ | j
    · rw [List.get?_append hklen]
    · obtain ⟨hjn, -⟩ := findBaseIdx_some_facts _ _ _ _ hf
      have hjk : j ≠ k := by omega
      rw [List.get?_eq_getElem?, List.getElem?_set_ne hjk,
          ← List.get?_eq_getElem?]

theorem foldEntryT_matched (orig acc : List Point) (label : String)
    (c : Contribs) (i : Nat) (base : Point)
    (hf : findBaseIdx orig.length acc label = some i)
    (hbase : orig.get? i = some base) (hacc : acc.get? i = some base) :
    foldEntryT orig acc label c =
      acc.set i
        ⟨label, (base.x + (c.map (fun x => x.2.1)).sum) / (c.length + 1),
         (base.y + (c.map (fun x => x.2.2)).sum) / (c.length + 1),
         base.errX, base.errY⟩ := by
  unfold foldEntryT
  simp only [hf, hbase, hacc, Option.getD_some]

theorem foldEntryT_unmatched (orig acc : List Point) (label : String)
    (c : Contribs) (hf : findBaseIdx orig.length acc label = none) :
    foldEntryT orig acc label c =
      acc ++ [⟨label, (c.map (fun x => x.2.1)).sum / c.length,
        (c.map (fun x => x.2.2)).sum / c.length, 0, 0⟩] := by
  unfold foldEntryT
  have hcast : ((c.length : ℚ) + 1) - 1 = (c.length : ℚ) := by ring
  simp only [hf, hcast]

theorem ledgerSafe_spec (p : Plot) (h : p.ledgerSafe = true) :
    ∀ e ∈ p.crowdsourced_points,
      findBaseIdx p.points.length p.points e.1 ≠ none ∨ e.2 ≠ [] := by
  unfold Plot.ledgerSafe at h
  rw [List.all_eq_true] at h
  intro e he
  rcases Bool.or_eq_true_iff.mp (h e he) with hx | hx
  · left
    intro hn
    rw [hn] at hx
    simp at hx
  · right
    intro hnil
    rw [hnil] at hx
    simp at hx

theorem foldEntry_eq_ok (orig acc : List Point) (label : String)
    (c : Contribs)
    (h : findBaseIdx orig.length acc label ≠ none ∨ c ≠ []) :
    foldEntry orig acc label c = Except.ok (foldEntryT orig acc label c) := by
  unfold foldEntry foldEntryT
  rcases hf : findBaseIdx orig.length acc label with _ | i
  · have hc : c ≠ [] := by
      rcases h with h | h
      · exact absurd hf h
      · exact h
    rw [if_neg (fun hz => hc (List.length_eq_zero.mp hz))]
  · rfl

theorem foldEntry_eq_err (orig acc : List Point) (label : String)
    (hf : findBaseIdx orig.length acc label = none) :
    foldEntry orig acc label [] = Except.error PyExc.zeroDivisionError := by
  unfold foldEntry
  rw [hf]
  rfl

theorem foldLedger_eq_ok (orig : List Point)
    (ledger : List (String × Contribs)) (acc : List Point)
    (hA : stripAgrees orig acc)
    (hsafe : ∀ e ∈ ledger,
      findBaseIdx orig.length orig e.1 ≠ none ∨ e.2 ≠ []) :
    foldLedger orig ledger acc =
      Except.ok (ledger.foldl (fun a e => foldEntryT orig a e.1 e.2) acc) := by
  induction ledger generalizing acc with
  | nil => rfl
  | cons e rest ih =>
    have hacc_safe : findBaseIdx orig.length acc e.1 ≠ none ∨ e.2 ≠ [] := by
      rcases hsafe e (List.mem_cons_self _ _) with h | h
      · left
        rw [findBaseIdx_congr orig acc e.1 hA]
        exact h
      · right
        exact h
    rw [List.foldl_cons]
    show (match foldEntry orig acc e.1 e.2 with
          | Except.error exc => Except.error exc
          | Except.ok acc' => foldLedger orig rest acc') = _
    rw [foldEntry_eq_ok orig acc e.1 e.2 hacc_safe]
    exact ih _ (stripAgrees_foldEntryT _ _ _ _ hA)
      (fun e' he' => hsafe e' (List.mem_cons_of_mem _ he'))

/-- C3 counterexample: on the reachable plot obtained by calling
`remove_crowdsource_point` for an unknown label on a fresh chart (its
ledger then holds an empty contribution dict under that label and there is
no matching base point), `update_points_with_crowdsource` raises
`ZeroDivisionError` instead of returning a derived point list. -/
theorem update_points_with_crowdsource_zero_div_cex :
    (rectPlot.remove_crowdsource_point "alice"
        "bob").2.update_points_with_crowdsource =
      Except.error PyExc.zeroDivisionError := rfl

/-- C3 as amended: when no ledger entry triggers the division by zero
(each entry matches a base point or has at least one contribution —
`ledgerSafe`), `update_points_with_crowdsource` returns `Except.ok` of a
derived point list (the stored list is only read — the model's type is
`Plot → Except PyExc (List Point)`): each ledger label (ledger keys are
distinct, as Python dict keys) matching a base point carries the average
of the base coordinate and all contributions (divisor `count + 1`) and
keeps the base point's error margins; each ledger label with no matching
base point contributes an appended zero-error point at the pure average
(divisor `count`). On an unmatched ledger label with an empty contribution
dict — a reachable state — the call instead raises `ZeroDivisionError`
(see the counterexample). Concretely, base `(1,1)` for "bob" with one
contribution `(3,4)` folds to `(2, 5/2)`. -/
theorem update_points_with_crowdsource_fold :
    (∀ (p : Plot) (label : String) (contribs : Contribs) (i : Nat)
       (base : Point),
      p.ledgerSafe = true →
      (p.crowdsourced_points.map Prod.fst).Nodup →
      (label, contribs) ∈ p.crowdsourced_points →
      findBaseIdx p.points.length p.points label = some i →
      p.points.get? i = some base →
      ∃ updated, p.update_points_with_crowdsource = Except.ok updated ∧
        updated.get? i =
          some ⟨label,
            (base.x + (contribs.map (fun c => c.2.1)).sum) /
              (contribs.length + 1),
            (base.y + (contribs.map (fun c => c.2.2)).sum) /
              (contribs.length + 1),
            base.errX, base.errY⟩) ∧
    (∀ (p : Plot) (label : String) (contribs : Contribs),
      p.ledgerSafe = true →
      (label, contribs) ∈ p.crowdsourced_points →
      findBaseIdx p.points.length p.points label = none →
      ∃ updated, p.update_points_with_crowdsource = Except.ok updated ∧
        (⟨label, (contribs.map (fun c => c.2.1)).sum / contribs.length,
           (contribs.map (fun c => c.2.2)).sum / contribs.length, 0, 0⟩ :
          Point) ∈ updated) ∧
    crowdPlot.update_points_with_crowdsource =
      Except.ok [⟨"bob", 2, 5/2, 0, 0⟩] := by
  refine ⟨?_, ?_, rfl⟩
  · intro p label contribs i base hsafe hknd hmem hfind hbase
    have hok : p.update_points_with_crowdsource =
        Except.ok (p.crowdsourced_points.foldl
          (fun a e => foldEntryT p.points a e.1 e.2) p.points) :=
      foldLedger_eq_ok p.points p.crowdsourced_points p.points
        (stripAgrees_refl _) (ledgerSafe_spec p hsafe)
    refine ⟨_, hok, ?_⟩
    obtain ⟨pre, post, hsplit⟩ := List.append_of_mem hmem
    obtain ⟨hin, hstrip⟩ := findBaseIdx_some_facts _ _ _ _ hfind
    have hkeys := hknd
    rw [hsplit, List.map_append, List.map_cons, List.nodup_append] at hkeys
    obtain ⟨hpreN, hconsN, hdisj⟩ := hkeys
    have hlabpre : label ∉ pre.map Prod.fst := fun hl =>
      hdisj hl (List.mem_cons_self _ _)
    have hlabpost : label ∉ post.map Prod.fst := by
      rw [List.nodup_cons] at hconsN
      exact hconsN.1
    have hkeydet : ∀ ℓ : String,
        findBaseIdx p.points.length p.points ℓ = some i → ℓ = label := by
      intro ℓ hℓ
      obtain ⟨-, hstrip'⟩ := findBaseIdx_some_facts _ _ _ _ hℓ
      exact hstrip'.symm.trans hstrip
    have hpre_no : ∀ e ∈ pre,
        findBaseIdx p.points.length p.points e.1 ≠ some i := by
      intro e he hcon
      exact hlabpre (hkeydet e.1 hcon ▸ List.mem_map_of_mem Prod.fst he)
    have hpost_no : ∀ e ∈ post,
        findBaseIdx p.points.length p.points e.1 ≠ some i := by
      intro e he hcon
      exact hlabpost (hkeydet e.1 hcon ▸ List.mem_map_of_mem Prod.fst he)
    rw [hsplit, List.foldl_append, List.foldl_cons]
    have hA0 : stripAgrees p.points
        (pre.foldl (fun a e => foldEntryT p.points a e.1 e.2) p.points) :=
      stripAgrees_foldl _ _ _ (stripAgrees_refl _)
    have hacc0i :
        (pre.foldl (fun a e => foldEntryT p.points a e.1 e.2)
          p.points).get? i = p.points.get? i :=
      foldl_get?_low _ _ _ _ hin (stripAgrees_refl _) hpre_no
    have hfind0 : findBaseIdx p.points.length
        (pre.foldl (fun a e => foldEntryT p.points a e.1 e.2) p.points)
        label = some i := by
      rw [findBaseIdx_congr _ _ _ hA0]
      exact hfind
    have hfoldstep : foldEntryT p.points
        (pre.foldl (fun a e => foldEntryT p.points a e.1 e.2) p.points)
        label contribs =
        (pre.foldl (fun a e => foldEntryT p.points a e.1 e.2)
          p.points).set i
          ⟨label,
           (base.x + (contribs.map (fun c => c.2.1)).sum) /
             (contribs.length + 1),
           (base.y + (contribs.map (fun c => c.2.2)).sum) /
             (contribs.length + 1),
           base.errX, base.errY⟩ :=
      foldEntryT_matched _ _ _ _ _ _ hfind0 hbase (hacc0i.trans hbase)
    rw [hfoldstep]
    have hA1 : stripAgrees p.points
        ((pre.foldl (fun a e => foldEntryT p.points a e.1 e.2)
          p.points).set i
          ⟨label,
           (base.x + (contribs.map (fun c => c.2.1)).sum) /
             (contribs.length + 1),
           (base.y + (contribs.map (fun c => c.2.2)).sum) /
             (contribs.length + 1),
           base.errX, base.errY⟩) :=
      hfoldstep ▸ stripAgrees_foldEntryT _ _ _ _ hA0
    rw [foldl_get?_low _ post _ i hin hA1 hpost_no]
    rw [List.get?_eq_getElem?,
        List.getElem?_set_self (Nat.lt_of_lt_of_le hin hA0.1)]
  · intro p label contribs hsafe hmem hfind
    have hok : p.update_points_with_crowdsource =
        Except.ok (p.crowdsourced_points.foldl
          (fun a e => foldEntryT p.points a e.1 e.2) p.points) :=
      foldLedger_eq_ok p.points p.crowdsourced_points p.points
        (stripAgrees_refl _) (ledgerSafe_spec p hsafe)
    refine ⟨_, hok, ?_⟩
    obtain ⟨pre, post, hsplit⟩ := List.append_of_mem hmem
    rw [hsplit, List.foldl_append, List.foldl_cons]
    have hA0 : stripAgrees p.points
        (pre.foldl (fun a e => foldEntryT p.points a e.1 e.2) p.points) :=
      stripAgrees_foldl _ _ _ (stripAgrees_refl _)
    have hfind0 : findBaseIdx p.points.length
        (pre.foldl (fun a e => foldEntryT p.points a e.1 e.2) p.points)
        label = none := by
      rw [findBaseIdx_congr _ _ _ hA0]
      exact hfind
    have hstep : foldEntryT p.points
        (pre.foldl (fun a e => foldEntryT p.points a e.1 e.2) p.points)
        label contribs =
        (pre.foldl (fun a e => foldEntryT p.points a e.1 e.2) p.points) ++
          [⟨label, (contribs.map (fun c => c.2.1)).sum / contribs.length,
            (contribs.map (fun c => c.2.2)).sum / contribs.length, 0, 0⟩] :=
      foldEntryT_unmatched _ _ _ _ hfind0
    rw [hstep]
    have hmemfin : (post.foldl (fun a e => foldEntryT p.points a e.1 e.2)
        ((pre.foldl (fun a e => foldEntryT p.points a e.1 e.2) p.points) ++
          [⟨label, (contribs.map (fun c => c.2.1)).sum / contribs.length,
            (contribs.map (fun c => c.2.2)).sum / contribs.length, 0,
            0⟩])).get?
        (pre.foldl (fun a e => foldEntryT p.points a e.1 e.2)
          p.points).length =
        some ⟨label, (contribs.map (fun c => c.2.1)).sum / contribs.length,
          (contribs.map (fun c => c.2.2)).sum / contribs.length, 0, 0⟩ := by
      rw [foldl_get?_high p.points post _ _ hA0.1
            (by simp)
            (hstep ▸ stripAgrees_foldEntryT _ _ _ _ hA0)]
      exact List.get?_concat_length _ _
    exact List.get?_mem hmemfin

/-- C3 witness: both successful fold branches at concrete safe charts —
the matched branch on `crowdPlot` and the unmatched branch on
`noBasePlot`. -/
theorem update_points_with_crowdsource_fold_witness :
    (∃ updated, crowdPlot.update_points_with_crowdsource =
        Except.ok updated ∧
      updated.get? 0 = some ⟨"bob", 2, 5/2, 0, 0⟩) ∧
    (∃ updated, noBasePlot.update_points_with_crowdsource =
        Except.ok updated ∧
      (⟨"bob", 3, 4, 0, 0⟩ : Point) ∈ updated) :=
  ⟨update_points_with_crowdsource_fold.1 crowdPlot "bob"
      [("alice", (3, 4))] 0 ⟨"bob", 1, 1, 0, 0⟩ (by decide) (by decide)
      (by decide) (by decide) (by decide),
   update_points_with_crowdsource_fold.2.1 noBasePlot "bob"
      [("alice", (3, 4))] (by decide) (by decide) (by decide)⟩
